import Mathlib

/-!
Verification development for the lyncx-server backend (src/server.js).

The server is an Express application guarding a per-user subscription-plan
record stored in a Firestore document collection.  Every route handler is
keyed by the uid of the authenticated caller, so the document store is modelled
by the single document slot at that uid (an `Option User`); timestamps are
integers (milliseconds since the epoch, the value of `Date.getTime()` /
`Date.now()`), and an ISO timestamp string stored in a document is
represented by its integer time value, `null` by `none`.
-/

namespace LyncxServer

/-- Identity attached to `req.user` by the JWT middleware: the `uid` and
`email` fields taken from the decoded token (server.js lines 59-62). -/
structure Identity where
  uid : String
  email : String
  deriving DecidableEq, Repr

/-- The plan object stored under the `plan` field of a user document.
`POST /api/user/create` builds it without a `stripeCustomerId` field and
`PUT /api/user/plan` builds it with one; an absent field and an explicit
`null` are both modelled as `none`. -/
structure Plan where
  type : String
  status : String
  subscriptionStart : Int
  subscriptionEnd : Option Int
  stripeCustomerId : Option String
  lastUpdated : Int
  deriving DecidableEq, Repr

/-- A user document, as written by `POST /api/user/create`
(server.js lines 149-165). -/
structure User where
  uid : String
  email : String
  displayName : Option String
  photoURL : Option String
  plan : Plan
  createdAt : Int
  lastLogin : Int
  deriving DecidableEq, Repr

/-- The document at `db.collection("users").doc(uid)` for the fixed uid of
the authenticated request: `none` when no document exists. -/
abbrev Store := Option User

/-- Firestore `update()` on a document reference rejects with a NOT_FOUND
error when the document does not exist; otherwise it merges the supplied
top-level fields into the existing document. -/
inductive StoreError where
  | notFound
  deriving DecidableEq, Repr

/-- `db.collection("users").doc(uid).update(fields)`: fails with NOT_FOUND
on a missing document, otherwise applies the top-level field merge `f`. -/
def docUpdate (doc : Store) (f : User → User) : Except StoreError Store :=
  match doc with
  | none => .error .notFound
  | some u => .ok (some (f u))

/-! ## AuthGate: the `authenticateToken` middleware (server.js lines 45-65) -/

/-- Outcome of the middleware: respond 401, respond 403, or call `next()`
with `req.user` set to the resolved identity. -/
inductive AuthResult where
  | unauthorized
  | forbidden
  | ok (ident : Identity)
  deriving DecidableEq, Repr

/-- JavaScript `split(" ")` on the character list of a string: cut the
list at every single space character, keeping empty fields. -/
def splitSpaces : List Char → List Char → List (List Char)
  | [], acc => [acc.reverse]
  | c :: rest, acc =>
    if c = ' ' then acc.reverse :: splitSpaces rest []
    else splitSpaces rest (c :: acc)

/-- `authHeader.split(" ")` as a list of strings. -/
def jsSplitSpace (s : String) : List String :=
  (splitSpaces s.data []).map (fun cs => ⟨cs⟩)

/-- `const token = authHeader && authHeader.split(" ")[1]` followed by the
`if (!token)` falsiness test: the result is `some t` exactly when the
header is present and its second space-separated field is a nonempty
string (a missing index yields `undefined` and an empty field yields the
empty string, both falsy). -/
def extractToken (authHeader : Option String) : Option String :=
  match authHeader with
  | none => none
  | some h =>
    match (jsSplitSpace h).get? 1 with
    | none => none
    | some t => if t = "" then none else some t

/-- The `authenticateToken` middleware.  `jwt.verify` is an external
library call, abstracted as a function from the raw token string to the
decoded identity (`none` on any verification error).  The middleware makes
no database call, so the store is passed through untouched. -/
def authenticateToken (verify : String → Option Identity)
    (authHeader : Option String) (doc : Store) : AuthResult × Store :=
  match extractToken authHeader with
  | none => (.unauthorized, doc)
  | some t =>
    match verify t with
    | none => (.forbidden, doc)
    | some ident => (.ok ident, doc)

/-! ## TokenCodec: `jwt.sign` / `jwt.verify` (server.js lines 315-317 and 53-64)

The jsonwebtoken library is external.  It is modelled as an idealized
message-authentication scheme: a signed token carries its payload together
with a signature, and the signature of a payload under a secret is
represented by the pair of the secret and the payload (a perfect MAC:
verification succeeds exactly for signatures produced with the same secret
over the same payload).  Expiry follows RFC 7519: verification at time
`now` succeeds only while `now` is strictly before `exp`. -/

/-- The claims set signed by `jwt.sign` with an `expiresIn` option:
uid and email plus issued-at and expiry instants. -/
structure JwtPayload where
  uid : String
  email : String
  iat : Int
  exp : Int
  deriving DecidableEq, Repr

/-- A signed token: payload plus signature. -/
structure SignedToken where
  payload : JwtPayload
  sig : String × JwtPayload
  deriving DecidableEq, Repr

/-- `jwt.sign(claims, secret, expiresIn)` at time `now` with a
time-to-live of `ttl` milliseconds. -/
def jwtSign (uid email secret : String) (now ttl : Int) : SignedToken :=
  let p : JwtPayload := ⟨uid, email, now, now + ttl⟩
  ⟨p, (secret, p)⟩

/-- `jwt.verify(token, secret)` evaluated at time `now`: succeeds with the
decoded payload iff the signature checks under `secret` and the token is
not yet expired. -/
def jwtVerify (t : SignedToken) (secret : String) (now : Int) :
    Option JwtPayload :=
  if t.sig = (secret, t.payload) ∧ now < t.payload.exp then
    some t.payload
  else
    none

/-- The assignment `req.user = (uid and email of the decoded token)`
(server.js lines 59-62). -/
def payloadIdentity (p : JwtPayload) : Identity :=
  ⟨p.uid, p.email⟩

/-- `POST /api/auth/generate-token`: `jwt.sign` with uid and email and a
fixed seven-day expiry (server.js lines 315-317). -/
def generateToken (uid email secret : String) (now : Int) : SignedToken :=
  jwtSign uid email secret now (7 * 24 * 60 * 60 * 1000)

/-! ## POST /api/user/create (server.js lines 124-179) -/

/-- The `newUserData` object (server.js lines 141-165), given the already
destructured `planType` (after the `= "trial"` default). -/
def mkNewUser (uid email planType : String) (now : Int) : User :=
  let subscriptionEnd : Option Int :=
    if planType = "trial" then some (now + 7 * 24 * 60 * 60 * 1000) else none
  { uid := uid
    email := email
    displayName := none
    photoURL := none
    plan :=
      { type := planType
        status := "active"
        subscriptionStart := now
        subscriptionEnd := subscriptionEnd
        stripeCustomerId := none
        lastUpdated := now }
    createdAt := now
    lastLogin := now }

/-- Request body of `POST /api/user/create`: `planType` is `none` when the
field is absent, in which case the destructuring default `"trial"`
applies. -/
structure CreateReq where
  uid : String
  email : String
  planType : Option String
  deriving DecidableEq, Repr

/-- The full create handler run without interleaving: check existence,
then either respond 409 leaving the store alone, or `set` the new user
document and respond 201. -/
def createUserHandler (r : CreateReq) (now : Int) (doc : Store) :
    Nat × Store :=
  match doc with
  | some _ => (409, doc)
  | none => (201, some (mkNewUser r.uid r.email (r.planType.getD "trial") now))

/-! ### Interleaving model of the create handler

The handler awaits twice: once for the existence check
(`await ...get()`, line 133) and once for the write (`await ...set(...)`,
line 167).  Between the two awaits another request on the same uid may
run.  A request is therefore modelled as a two-step program over the
shared document slot. -/

/-- Progress of one in-flight create request: not yet run, existence
check done (recording what it observed), or finished with an HTTP
status. -/
inductive ReqPhase where
  | start
  | checked (already : Bool)
  | done (status : Nat)
  deriving DecidableEq, Repr

/-- One atomic step of a create request: the first step performs the
`get()` and records `existingUser.exists`; the second step responds 409
or performs the unconditional `set()` and responds 201. -/
def createStep (r : CreateReq) (now : Int) (ph : ReqPhase) (doc : Store) :
    ReqPhase × Store :=
  match ph with
  | .start => (.checked doc.isSome, doc)
  | .checked true => (.done 409, doc)
  | .checked false =>
    (.done 201, some (mkNewUser r.uid r.email (r.planType.getD "trial") now))
  | .done s => (.done s, doc)

/-- Joint state of two concurrent create requests for the same uid. -/
structure RaceState where
  ph0 : ReqPhase
  ph1 : ReqPhase
  doc : Store
  deriving DecidableEq, Repr

/-- Run one step of the scheduled request. -/
def raceStep (r0 r1 : CreateReq) (now : Int) (s : RaceState) (i : Fin 2) :
    RaceState :=
  match i with
  | 0 =>
    let p := createStep r0 now s.ph0 s.doc
    { s with ph0 := p.1, doc := p.2 }
  | 1 =>
    let p := createStep r1 now s.ph1 s.doc
    { s with ph1 := p.1, doc := p.2 }

/-- Run a schedule (a list of request indices) over the joint state. -/
def runRace (r0 r1 : CreateReq) (now : Int) :
    List (Fin 2) → RaceState → RaceState
  | [], s => s
  | i :: rest, s => runRace r0 r1 now rest (raceStep r0 r1 now s i)

/-! ## PUT /api/user/plan (server.js lines 182-220) -/

/-- `const validPlans = ["free", "trial", "pro", "plus"]`. -/
def validPlans : List String := ["free", "trial", "pro", "plus"]

/-- JavaScript `x || null` on an optional string field: an absent field
and an empty string are both falsy and become `null`. -/
def jsOrNullStr (x : Option String) : Option String :=
  match x with
  | none => none
  | some s => if s = "" then none else some s

/-- The `updatedPlan` object (server.js lines 195-202).  In the request the
`subscriptionEnd` is an ISO timestamp string or absent; since a supplied
timestamp string is nonempty and hence truthy, `subscriptionEnd || null`
is the identity on this `Option Int` representation. -/
def mkUpdatedPlan (planType : String) (subscriptionEnd : Option Int)
    (stripeCustomerId : Option String) (now : Int) : Plan :=
  { type := planType
    status := "active"
    subscriptionStart := now
    subscriptionEnd := subscriptionEnd
    stripeCustomerId := jsOrNullStr stripeCustomerId
    lastUpdated := now }

/-- The `PUT /api/user/plan` handler: validate the plan type (an absent
`planType` is not in `validPlans` and is rejected the same way), then
`update` the document with the new `plan` and a refreshed `lastLogin`.  A
failing `update` (missing document) is caught and surfaced as a 500. -/
def updatePlanHandler (planType : Option String) (subscriptionEnd : Option Int)
    (stripeCustomerId : Option String) (now : Int) (doc : Store) :
    Nat × Store :=
  match planType with
  | none => (400, doc)
  | some pt =>
    if validPlans.contains pt then
      match docUpdate doc (fun u =>
          { u with
            plan := mkUpdatedPlan pt subscriptionEnd stripeCustomerId now
            lastLogin := now }) with
      | .error _ => (500, doc)
      | .ok doc2 => (200, doc2)
    else
      (400, doc)

/-! ## PUT /api/user/profile (server.js lines 223-245) -/

/-- The `PUT /api/user/profile` handler.  A request field is
`Option (Option String)`: the outer layer is the `!== undefined` test
(absent fields are not merged), the inner layer allows an explicit
`null`.  `lastLogin` is always part of the update object.  A failing
`update` (missing document) is caught and surfaced as a 500. -/
def updateProfileHandler (displayName photoURL : Option (Option String))
    (now : Int) (doc : Store) : Nat × Store :=
  match docUpdate doc (fun u =>
      { u with
        lastLogin := now
        displayName := displayName.getD u.displayName
        photoURL := photoURL.getD u.photoURL }) with
  | .error _ => (500, doc)
  | .ok doc2 => (200, doc2)

/-! ## GET /api/user/stats: derived plan queries (server.js lines 259-276) -/

/-- `Math.ceil(a / d)` for an integer numerator `a` and a positive integer
denominator `d`, computed exactly in integer arithmetic: the ceiling of
the rational quotient is the negated floor division of the negation
(`Int` division by a positive divisor is floor division).  The lemma
`jsCeilDiv_eq_ceil` below proves it equal to the rational ceiling. -/
def jsCeilDiv (a : Int) (d : Nat) : Int :=
  -((-a) / (d : Int))

/-- The `daysRemaining` computation of the stats handler: `null` when
`plan.subscriptionEnd` is null (the stored ISO string is otherwise
nonempty, hence truthy), else `Math.max(0, Math.ceil(msRemaining / (1000 *
60 * 60 * 24)))` with `msRemaining = subscriptionEnd - now`. -/
def daysRemaining (subscriptionEnd : Option Int) (now : Int) : Option Int :=
  match subscriptionEnd with
  | none => none
  | some e => some (max 0 (jsCeilDiv (e - now) (1000 * 60 * 60 * 24)))

/-- The `isExpired` computation of the stats handler:
`plan.subscriptionEnd ? new Date() > new Date(plan.subscriptionEnd) :
false` — strict comparison of the current instant against the expiry. -/
def isExpired (subscriptionEnd : Option Int) (now : Int) : Bool :=
  match subscriptionEnd with
  | none => false
  | some e => decide (e < now)

/-- A sample stored user document, used to instantiate theorems with
hypotheses at concrete inputs. -/
def sampleUser : User :=
  { uid := "u1"
    email := "a@x.com"
    displayName := none
    photoURL := none
    plan :=
      { type := "plus"
        status := "canceled"
        subscriptionStart := 1
        subscriptionEnd := some 99
        stripeCustomerId := some "cus_old"
        lastUpdated := 2 }
    createdAt := 0
    lastLogin := 0 }

/-- A sample external verifier standing for `jwt.verify` under some fixed
secret: it accepts exactly the raw string "sometoken". -/
def demoVerify : String → Option Identity :=
  fun t => if t = "sometoken" then some ⟨"u1", "a@x.com"⟩ else none

/-! ## Theorems -/

/-- The integer ceiling division used in `daysRemaining` agrees with the
ceiling of the exact rational quotient, which is what `Math.ceil` computes
on the (exactly representable) millisecond quantities involved. -/
theorem jsCeilDiv_eq_ceil (a : Int) (d : Nat) :
    jsCeilDiv a d = ⌈(a : ℚ) / (d : ℚ)⌉ := by
  have h1 : (⌈(a : ℚ) / (d : ℚ)⌉ : Int) = -⌊-((a : ℚ) / (d : ℚ))⌋ := by
    rw [Int.floor_neg]
    ring
  have h2 : -((a : ℚ) / (d : ℚ)) = ((-a : Int) : ℚ) / ((d : Nat) : ℚ) := by
    push_cast
    ring
  rw [h1, h2, Rat.floor_intCast_div_natCast, jsCeilDiv]

/-- Claim C4: for every plan and time now, daysRemaining is null when
subscriptionEnd is null, and otherwise equals
max(0, ceil((subscriptionEnd - now) / 1 day)) over the exact rational
quotient; in particular a plan expiring in 30 minutes reports 1 day
remaining, not 0. -/
theorem c4_daysRemaining_spec :
    (∀ now : Int, daysRemaining none now = none) ∧
    (∀ e now : Int, daysRemaining (some e) now =
      some (max 0 ⌈(((e : ℚ) - (now : ℚ)) / (1000 * 60 * 60 * 24 : ℚ))⌉)) ∧
    (∀ now : Int, daysRemaining (some (now + 30 * 60 * 1000)) now = some 1) := by
  refine ⟨fun now => rfl, fun e now => ?_, fun now => ?_⟩
  · have h := jsCeilDiv_eq_ceil (e - now) (1000 * 60 * 60 * 24)
    simp only [daysRemaining, h]
    norm_num
  · have harg : now + 30 * 60 * 1000 - now = (30 * 60 * 1000 : Int) := by ring
    simp only [daysRemaining, harg]
    norm_num [jsCeilDiv]

/-- Claim C5: isExpired is false when subscriptionEnd is null, and
otherwise is the strict comparison now > subscriptionEnd: equal instants
are not expired, one second past the end is expired. -/
theorem c5_isExpired_spec :
    (∀ now : Int, isExpired none now = false) ∧
    (∀ e now : Int, isExpired (some e) now = decide (now > e)) ∧
    (∀ now : Int, isExpired (some now) now = false) ∧
    (∀ now : Int, isExpired (some (now - 1000)) now = true) := by
  refine ⟨fun now => rfl, fun e now => rfl, fun now => ?_, fun now => ?_⟩
  · simp [isExpired]
  · simp only [isExpired, decide_eq_true_eq]
    omega

/-- Claim C2, counterexample: the middleware never validates the scheme
word of the Authorization header.  With the header "Basic sometoken" the
scheme is malformed (not Bearer), yet when the second field happens to be
a token that verifies, the request is accepted and the identity attached
instead of failing with 401 MissingToken; the claim as stated is false. -/
theorem c2_scheme_counterexample :
    extractToken (some "Basic sometoken") = some "sometoken" ∧
    (authenticateToken demoVerify (some "Basic sometoken") none).1 =
      .ok ⟨"u1", "a@x.com"⟩ ∧
    (authenticateToken demoVerify (some "Basic sometoken") none).1 ≠
      .unauthorized := by
  refine ⟨by decide, by decide, by decide⟩

/-- Claim C2 as amended: a missing header, or a header whose second
space-separated field is absent or empty, fails with 401; the scheme word
itself is never checked — whatever follows the first space is taken as
the token; a present extracted token failing verification fails with 403;
on success the resolved identity (uid, email) is attached and in every
case no store is mutated. -/
theorem c2_auth_gate (verify : String → Option Identity)
    (h : Option String) (doc : Store) :
    (extractToken h = none →
      authenticateToken verify h doc = (.unauthorized, doc)) ∧
    (∀ t, extractToken h = some t → verify t = none →
      authenticateToken verify h doc = (.forbidden, doc)) ∧
    (∀ t ident, extractToken h = some t → verify t = some ident →
      authenticateToken verify h doc = (.ok ident, doc)) ∧
    (authenticateToken verify h doc).2 = doc := by
  refine ⟨fun hnone => ?_, fun t ht hv => ?_, fun t ident ht hv => ?_, ?_⟩
  · simp [authenticateToken, hnone]
  · simp [authenticateToken, ht, hv]
  · simp [authenticateToken, ht, hv]
  · rcases hx : extractToken h with _ | t
    · simp [authenticateToken, hx]
    · rcases hv : verify t with _ | ident <;> simp [authenticateToken, hx, hv]

/-- Witness for the amended claim C2: the success clause at the header
"Bearer sometoken" under the sample verifier. -/
theorem c2_auth_gate_witness :
    authenticateToken demoVerify (some "Bearer sometoken") none =
      (.ok ⟨"u1", "a@x.com"⟩, none) := by
  exact (c2_auth_gate demoVerify (some "Bearer sometoken") none).2.2.1
    "sometoken" ⟨"u1", "a@x.com"⟩ rfl rfl

/-- Claim C9: verifying a token produced by signing the claims (uid,
email) with time-to-live ttl > 0, at any time strictly before its expiry
and under the same secret, succeeds and returns the original identity
unchanged. -/
theorem c9_token_roundtrip (uid email secret : String) (now ttl t : Int)
    (_httl : 0 < ttl) (ht : t < now + ttl) :
    (jwtVerify (jwtSign uid email secret now ttl) secret t).map
      payloadIdentity = some ⟨uid, email⟩ := by
  simp [jwtVerify, jwtSign, payloadIdentity, ht]

/-- Witness for claim C9: the roundtrip at concrete claims, the seven-day
ttl used by the generate-token endpoint, and a verification time one
millisecond after issuance. -/
theorem c9_token_roundtrip_witness :
    0 < (7 * 24 * 60 * 60 * 1000 : Int) ∧
    (jwtVerify (jwtSign "u1" "a@x.com" "s3cret" 0 (7 * 24 * 60 * 60 * 1000))
      "s3cret" 1).map payloadIdentity = some ⟨"u1", "a@x.com"⟩ := by
  exact ⟨by norm_num,
    c9_token_roundtrip "u1" "a@x.com" "s3cret" 0 (7 * 24 * 60 * 60 * 1000) 1
      (by norm_num) (by norm_num)⟩

/-- Claim C1, failing execution: the create handler checks existence with
a plain `get()` and then writes with an unconditional `set()`, so two
concurrent create calls for the same uid may both pass the check before
either writes.  Under the schedule check0, check1, write0, write1 starting
from an empty store, both requests finish with 201 and the second write
silently overwrites the first, contradicting the at-most-one-winner
contract.  (Sequentially the handler does behave as claimed: the second
conjunct shows a create against an existing document answers 409 and
leaves the store unchanged.) -/
theorem c1_create_race :
    runRace ⟨"u1", "a@x.com", some "free"⟩ ⟨"u1", "a@x.com", some "pro"⟩ 0
        [0, 1, 0, 1] ⟨.start, .start, none⟩ =
      ⟨.done 201, .done 201, some (mkNewUser "u1" "a@x.com" "pro" 0)⟩ ∧
    createUserHandler ⟨"u1", "a@x.com", some "pro"⟩ 0
        (some (mkNewUser "u1" "a@x.com" "free" 0)) =
      (409, some (mkNewUser "u1" "a@x.com" "free" 0)) := by
  exact ⟨rfl, rfl⟩

/-- Claim C6: a changePlan request whose planType is not one of free,
trial, pro, plus — including an absent planType — answers 400 and leaves
the store exactly as it was. -/
theorem c6_invalid_plan_rejected :
    (∀ (s : String), s ∉ validPlans →
      ∀ (subEnd : Option Int) (stripe : Option String) (now : Int)
        (doc : Store),
        updatePlanHandler (some s) subEnd stripe now doc = (400, doc)) ∧
    (∀ (subEnd : Option Int) (stripe : Option String) (now : Int)
      (doc : Store),
      updatePlanHandler none subEnd stripe now doc = (400, doc)) := by
  refine ⟨fun s hs subEnd stripe now doc => ?_, fun subEnd stripe now doc => rfl⟩
  simp [updatePlanHandler, hs]

/-- Witness for claim C6: the rejected plan type "bogus" against a stored
user; the response is 400 and the document is untouched. -/
theorem c6_invalid_plan_rejected_witness :
    "bogus" ∉ validPlans ∧
    updatePlanHandler (some "bogus") (some 99) (some "cus_x") 7
        (some sampleUser) = (400, some sampleUser) := by
  exact ⟨by decide,
    c6_invalid_plan_rejected.1 "bogus" (by decide) (some 99) (some "cus_x") 7
      (some sampleUser)⟩

/-- Claim C7: a successful changePlan stores a brand-new plan built only
from the request and the current time: status is reset to active,
subscriptionStart and lastUpdated are reset to now, subscriptionEnd and
the billing id come solely from the request (defaulting to null), and no
field of the prior plan survives; the stored user keeps every other field
except lastLogin, which is refreshed.  The second conjunct is the spec
scenario: changing to pro with no end date and billing id cus_123 yields
an active pro plan with null expiry, null daysRemaining, not expired. -/
theorem c7_changePlan_full_replacement (pt : String) (hpt : pt ∈ validPlans)
    (u : User) (subEnd : Option Int) (stripe : Option String) (now : Int)
    (hs : stripe ≠ some "") :
    updatePlanHandler (some pt) subEnd stripe now (some u) =
      (200, some
        { u with
          plan :=
            { type := pt
              status := "active"
              subscriptionStart := now
              subscriptionEnd := subEnd
              stripeCustomerId := stripe
              lastUpdated := now }
          lastLogin := now }) ∧
    (mkUpdatedPlan "pro" none (some "cus_123") now =
      { type := "pro"
        status := "active"
        subscriptionStart := now
        subscriptionEnd := none
        stripeCustomerId := some "cus_123"
        lastUpdated := now } ∧
      daysRemaining (mkUpdatedPlan "pro" none (some "cus_123") now).subscriptionEnd
        now = none ∧
      isExpired (mkUpdatedPlan "pro" none (some "cus_123") now).subscriptionEnd
        now = false) := by
  have hjs : jsOrNullStr stripe = stripe := by
    rcases stripe with _ | s
    · rfl
    · have : s ≠ "" := fun h => hs (by rw [h])
      simp [jsOrNullStr, this]
  refine ⟨?_, rfl, rfl, rfl⟩
  simp [updatePlanHandler, docUpdate, mkUpdatedPlan, hpt, hjs]

/-- Witness for claim C7: changing the sample user (whose prior plan
carries a custom end date and an old billing id) to pro with billing id
cus_123 replaces the plan wholesale. -/
theorem c7_changePlan_full_replacement_witness :
    updatePlanHandler (some "pro") none (some "cus_123") 7 (some sampleUser) =
      (200, some
        { sampleUser with
          plan :=
            { type := "pro"
              status := "active"
              subscriptionStart := 7
              subscriptionEnd := none
              stripeCustomerId := some "cus_123"
              lastUpdated := 7 }
          lastLogin := 7 }) := by
  exact (c7_changePlan_full_replacement "pro" (by decide) sampleUser none
    (some "cus_123") 7 (by decide)).1

/-- Claim C3: an update (plan or profile) keyed by a uid with no stored
document fails — the store-level update rejects with NotFound and the
handler stores nothing (surfacing the caught error as a 500) — and when a
document exists, only the supplied top-level fields are merged, every
omitted field is left untouched, and lastLogin is refreshed to now by
every update call. -/
theorem c3_update_merge_semantics :
    (∀ f : User → User, docUpdate none f = .error .notFound) ∧
    (∀ (dn pu : Option (Option String)) (now : Int),
      updateProfileHandler dn pu now none = (500, none)) ∧
    (∀ (s : String), s ∈ validPlans →
      ∀ (subEnd : Option Int) (stripe : Option String) (now : Int),
        updatePlanHandler (some s) subEnd stripe now none = (500, none)) ∧
    (∀ (dn pu : Option (Option String)) (now : Int) (u : User),
      updateProfileHandler dn pu now (some u) =
        (200, some
          { u with
            lastLogin := now
            displayName := dn.getD u.displayName
            photoURL := pu.getD u.photoURL })) ∧
    (∀ (s : String), s ∈ validPlans →
      ∀ (u : User) (subEnd : Option Int) (stripe : Option String) (now : Int),
        updatePlanHandler (some s) subEnd stripe now (some u) =
          (200, some
            { u with
              plan := mkUpdatedPlan s subEnd stripe now
              lastLogin := now })) := by
  refine ⟨fun f => rfl, fun dn pu now => rfl, fun s hs subEnd stripe now => ?_,
    fun dn pu now u => rfl, fun s hs u subEnd stripe now => ?_⟩
  · simp [updatePlanHandler, docUpdate, hs]
  · simp [updatePlanHandler, docUpdate, hs]

/-- Witness for claim C3: a profile update supplying only displayName
against the sample user refreshes lastLogin and displayName and touches
nothing else; the same update against an empty store fails. -/
theorem c3_update_merge_semantics_witness :
    updateProfileHandler (some (some "Neo")) none 9 (some sampleUser) =
      (200, some { sampleUser with lastLogin := 9, displayName := some "Neo" }) ∧
    updateProfileHandler (some (some "Neo")) none 9 none = (500, none) := by
  exact ⟨c3_update_merge_semantics.2.2.2.1 (some (some "Neo")) none 9 sampleUser,
    c3_update_merge_semantics.2.1 (some (some "Neo")) none 9⟩

/-- Claim C8: creating a user with planType trial at time now stores the
plan (trial, active, start now, end now plus seven days, lastUpdated
now); trial is the only plan type whose creation sets an expiry — any
other planType yields a null subscriptionEnd.  The last two conjuncts are
the spec scenario: at creation time the trial reports seven days
remaining and is not expired. -/
theorem c8_trial_creation (uid email : String) (now : Int) :
    createUserHandler ⟨uid, email, some "trial"⟩ now none =
      (201, some (mkNewUser uid email "trial" now)) ∧
    (mkNewUser uid email "trial" now).plan =
      { type := "trial"
        status := "active"
        subscriptionStart := now
        subscriptionEnd := some (now + 7 * 24 * 60 * 60 * 1000)
        stripeCustomerId := none
        lastUpdated := now } ∧
    (∀ pt : String, pt ≠ "trial" →
      (mkNewUser uid email pt now).plan.subscriptionEnd = none) ∧
    daysRemaining (some (now + 7 * 24 * 60 * 60 * 1000)) now = some 7 ∧
    isExpired (some (now + 7 * 24 * 60 * 60 * 1000)) now = false := by
  refine ⟨rfl, rfl, fun pt hpt => ?_, ?_, ?_⟩
  · simp [mkNewUser, hpt]
  · have harg : now + 7 * 24 * 60 * 60 * 1000 - now =
        (7 * 24 * 60 * 60 * 1000 : Int) := by ring
    simp only [daysRemaining, harg]
    norm_num [jsCeilDiv]
  · simp only [isExpired, decide_eq_false_iff_not, not_lt]
    omega

/-- Witness for claim C8: the trial creation at time zero, and the
null expiry of a creation with planType pro. -/
theorem c8_trial_creation_witness :
    createUserHandler ⟨"u1", "a@x.com", some "trial"⟩ 0 none =
      (201, some (mkNewUser "u1" "a@x.com" "trial" 0)) ∧
    (mkNewUser "u1" "a@x.com" "pro" 0).plan.subscriptionEnd = none := by
  exact ⟨(c8_trial_creation "u1" "a@x.com" 0).1,
    (c8_trial_creation "u1" "a@x.com" 0).2.2.1 "pro" (by decide)⟩

/-- Claim C10: the create path validates planType in no way — every
string, including values outside the valid plan list, is accepted for a
fresh uid with a 201, stored verbatim as the plan type, and given a null
subscriptionEnd whenever it is not exactly "trial". -/
theorem c10_create_accepts_any_plan (uid email s : String) (now : Int) :
    createUserHandler ⟨uid, email, some s⟩ now none =
      (201, some (mkNewUser uid email s now)) ∧
    (mkNewUser uid email s now).plan.type = s ∧
    (s ≠ "trial" → (mkNewUser uid email s now).plan.subscriptionEnd = none) := by
  refine ⟨rfl, rfl, fun hs => ?_⟩
  simp [mkNewUser, hs]

/-- Witness for claim C10: the invalid plan type "bogus" is accepted and
stored with a null expiry. -/
theorem c10_create_accepts_any_plan_witness :
    createUserHandler ⟨"u1", "a@x.com", some "bogus"⟩ 3 none =
      (201, some (mkNewUser "u1" "a@x.com" "bogus" 3)) ∧
    (mkNewUser "u1" "a@x.com" "bogus" 3).plan.type = "bogus" ∧
    (mkNewUser "u1" "a@x.com" "bogus" 3).plan.subscriptionEnd = none := by
  have h := c10_create_accepts_any_plan "u1" "a@x.com" "bogus" 3
  exact ⟨h.1, h.2.1, h.2.2 (by decide)⟩

end LyncxServer
